import Mathlib

/-
Verification of the seed-data generator in src/data/import.py.

The script writes two SQL files, animals.sql and plants.sql.  Each file is a
sequence of f.write calls: a create-table statement, a hand-authored insert
block, an opening values clause, then one loop iteration per generated row
(emitting an optional separator and the formatted row), and a final
semicolon.  We embed each write call as a string, each loop as explicit
state passing over List.range, and the whole file as the concatenation of
the writes in order.

Numeric subtlety of the source: the script runs under Python 3, where the
slash operator is true division and returns a float.  Every division in the
script is exact (20, 50 and 1000 all divide row_cnt, and all quotients are
far below 2 to the 53rd), and taking an int modulo such a float yields a
float whose value is exactly the integer remainder.  Hence every numeric
value of the script is an integer-valued, exactly-representable float or
int, and we model it as a natural number together with a flag recording
whether the Python value is a float, which only affects rendering: Python
prints the float 3999.0 as the digits followed by a trailing point-zero.
-/

/-- A numeric value of the script: its exact integer value together with
whether the Python value is a float (true division results and modulo by a
float give floats).  All such values in the script are integer-valued and
exactly representable, so the flag only affects string rendering. -/
structure PyNum where
  val : Nat
  isFloat : Bool
deriving DecidableEq, Repr

/-- Decimal rendering of a natural number, modelling Python str on a
nonnegative int: the decimal digits, most significant first. -/
def pyStrNat (n : Nat) : String :=
  if n = 0 then "0" else ⟨(Nat.digits 10 n).reverse.map Nat.digitChar⟩

/-- Rendering of a script value inside an f-string: Python prints an
integer-valued float below ten to the sixteenth as its digits followed by
a trailing point-zero, and an int as bare digits. -/
def PyNum.render (x : PyNum) : String :=
  pyStrNat x.val ++ if x.isFloat then ".0" else ""

/-- Python true division on the naturals appearing in the script.  Every
division performed by the script is exact, so the resulting float is
exactly the natural number quotient; the flag records float-ness. -/
def pyDiv (a b : Nat) : PyNum := ⟨a / b, true⟩

/-- Python modulo of an int by a script value.  When the modulus is a
float the result is a float; the value is the exact integer remainder. -/
def pyMod (i : Nat) (m : PyNum) : PyNum := ⟨i % m.val, m.isFloat⟩

/-- Source line 1. -/
def row_cnt : Nat := 200000

/-- Source line 2: row_cnt / 20, a Python float (true division). -/
def insert_batch_cnt : PyNum := pyDiv row_cnt 20

/-- Source lines 3 to 7: the hand-authored plants insert block. -/
def custom_plants : String :=
  "insert into plants values\n  (-1,'sunflower', 3,1),\n  (-2,'carnation',0,1),\n  (-3,'wildflower',4,3);\n"

/-- Source lines 8 to 12: the hand-authored animals insert block. -/
def custom_animals : String :=
  "insert into animals values\n  (-1,'goat',2,4),\n  (-2,'cow',1,3),\n  (-3,'chicken',0,1);\n"

/-- Source line 15: the create-table write for animals.sql. -/
def animalsHeader : String :=
  "create table animals (id int primary key, name varchar(20), category int, elevation int, key (name), key (category), key (elevation))\n;"

/-- Source line 29: the create-table write for plants.sql. -/
def plantsHeader : String :=
  "create table plants (id int primary key, name varchar(20), category int, elevation int, key (name), key (category), key (elevation))\n;"

/-- The opening values clause written before the animals loop and at each
animals batch boundary (source lines 17 and 21). -/
def animalsValuesClause : String := "insert into animals values\n"

/-- The opening values clause written before the plants loop and at each
plants batch boundary (source lines 31 and 35). -/
def plantsValuesClause : String := "insert into plants values\n"

/-- The environment threaded through the script: the current values of the
variables category and elevation, or none while they are still unbound
(before the animals loop has assigned them; reading an unbound name would
raise a NameError). -/
abbrev PyEnv := Option (PyNum × PyNum)

/-- The separator writes at the top of a loop iteration (source lines 19
to 23 and 33 to 37): at a nonzero batch boundary, a semicolon line and a
fresh values clause; otherwise for positive index a comma line; nothing
for the first iteration.  The boundary test is the Python comparison of
the float i mod insert_batch_cnt with the int 0, which holds exactly when
the integer value of the remainder is zero. -/
def sepWrites (valuesClause : String) (i : Nat) : List String :=
  if 0 < i ∧ (pyMod i insert_batch_cnt).val = 0 then [";\n", valuesClause]
  else if 0 < i then [",\n"]
  else []

/-- The data one loop iteration feeds to its write calls: the separator
writes, then the row write built from the id, the synthetic name, and the
category and elevation values read at the write (none if those names were
unbound, which would be a NameError in Python). -/
structure IterOut where
  sep : List String
  rowId : Nat
  rowName : String
  rowVals : Option (PyNum × PyNum)
deriving DecidableEq, Repr

/-- The row write of one iteration, mirroring the f-string of source lines
26 and 38: two spaces, open paren, the id, a comma and quote, the name, a
quote and comma, the category, a comma, the elevation, close paren. -/
def rowText (id : Nat) (name : String) (v : PyNum × PyNum) : String :=
  "  (" ++ pyStrNat id ++ ",'" ++ name ++ "'," ++ v.1.render ++ "," ++ v.2.render ++ ")"

/-- The write calls performed by one loop iteration, in order.  The none
branch is unreachable in the actual program (the animals loop assigns both
variables before any read; see the characterization lemmas below): in
Python it would raise a NameError before writing anything. -/
def IterOut.writes (o : IterOut) : List String :=
  o.sep ++ [match o.rowVals with
    | some v => rowText o.rowId o.rowName v
    | none => ""]

/-- Sequential execution of a loop body over a list of indices, threading
the environment and collecting each iteration's output in order. -/
def runLoop {σ α : Type} (step : σ → Nat → α × σ) : σ → List Nat → List α × σ
  | s, [] => ([], s)
  | s, i :: is =>
    let r := step s i
    let rest := runLoop step r.2 is
    (r.1 :: rest.1, rest.2)

/-- One iteration of the animals loop (source lines 18 to 26): compute the
separator writes, assign category and elevation from the current index,
then write the row from the values just assigned. -/
def animalsStep (_ : PyEnv) (i : Nat) : IterOut × PyEnv :=
  let category := pyMod i (pyDiv row_cnt 50)
  let elevation := pyMod i (pyDiv row_cnt 1000)
  (⟨sepWrites animalsValuesClause i, i, "name" ++ pyStrNat i, some (category, elevation)⟩,
   some (category, elevation))

/-- One iteration of the plants loop (source lines 32 to 40): compute the
separator writes, write the row from the values currently in the
environment (the updates come after the write in the source), then assign
category and elevation from the current index. -/
def plantsStep (s : PyEnv) (i : Nat) : IterOut × PyEnv :=
  let category := pyMod i (pyDiv row_cnt 50)
  let elevation := pyMod i (pyDiv row_cnt 1000)
  (⟨sepWrites plantsValuesClause i, i, "name" ++ pyStrNat i, s⟩,
   some (category, elevation))

/-- The animals loop, run first, from the initial environment in which
category and elevation are unbound. -/
def animalsRun : List IterOut × PyEnv := runLoop animalsStep none (List.range row_cnt)

/-- The iterations of the animals loop in order. -/
def animalsIters : List IterOut := animalsRun.1

/-- All write calls against animals.sql in order (source lines 15 to 27):
header, hand-authored block, opening values clause, the loop writes, and
the final semicolon line. -/
def animalsFileWrites : List String :=
  [animalsHeader, custom_animals, animalsValuesClause]
    ++ animalsIters.flatMap IterOut.writes ++ [";\n"]

/-- The full text of animals.sql. -/
def animalsFile : String := String.join animalsFileWrites

/-- The plants loop, run second, starting from the environment left behind
by the animals loop. -/
def plantsRun : List IterOut × PyEnv := runLoop plantsStep animalsRun.2 (List.range row_cnt)

/-- The iterations of the plants loop in order. -/
def plantsIters : List IterOut := plantsRun.1

/-- All write calls against plants.sql in order (source lines 29 to 41). -/
def plantsFileWrites : List String :=
  [plantsHeader, custom_plants, plantsValuesClause]
    ++ plantsIters.flatMap IterOut.writes ++ [";\n"]

/-- The full text of plants.sql. -/
def plantsFile : String := String.join plantsFileWrites

/-- Structured reading of the column declarations in the two (identical up
to table name) create-table writes of source lines 15 and 29. -/
def schemaCols : List (String × String) :=
  [("id", "int primary key"), ("name", "varchar(20)"), ("category", "int"), ("elevation", "int")]

/-- Structured reading of the secondary keys in the create-table writes. -/
def schemaKeys : List String := ["name", "category", "elevation"]

/-- Rendering of a create-table statement from the structured schema; the
lemmas below prove it reproduces the header writes byte for byte. -/
def renderCreateTable (table : String) : String :=
  "create table " ++ table ++ " ("
    ++ String.intercalate ", " (schemaCols.map (fun c => c.1 ++ " " ++ c.2))
    ++ ", " ++ String.intercalate ", " (schemaKeys.map (fun k => "key (" ++ k ++ ")"))
    ++ ")\n;"

/-- Structured reading of the three hand-authored animals rows (source
lines 9 to 11), one string per row. -/
def custom_animals_rowStrs : List String :=
  ["  (-1,'goat',2,4)", "  (-2,'cow',1,3)", "  (-3,'chicken',0,1)"]

/-- Structured reading of the three hand-authored plants rows (source
lines 4 to 6), one string per row. -/
def custom_plants_rowStrs : List String :=
  ["  (-1,'sunflower', 3,1)", "  (-2,'carnation',0,1)", "  (-3,'wildflower',4,3)"]

/-- The ids of the hand-authored rows, identical in both blocks. -/
def custom_ids : List Int := [-1, -2, -3]

/-- Rendering of a hand-authored insert block from its row strings; the
lemmas below prove it reproduces the source string literals byte for
byte. -/
def seedBlock (valuesClause : String) (rows : List String) : String :=
  valuesClause ++ String.intercalate ",\n" rows ++ ";\n"

theorem custom_animals_structured :
    custom_animals = seedBlock animalsValuesClause custom_animals_rowStrs := by decide

theorem custom_plants_structured :
    custom_plants = seedBlock plantsValuesClause custom_plants_rowStrs := by decide

theorem animalsHeader_structured : animalsHeader = renderCreateTable "animals" := by decide

theorem plantsHeader_structured : plantsHeader = renderCreateTable "plants" := by decide

/-- Unfolding of one iteration of runLoop. -/
theorem runLoop_cons {σ α : Type} (step : σ → Nat → α × σ) (s : σ) (i : Nat) (is : List Nat) :
    runLoop step s (i :: is)
      = ((step s i).1 :: (runLoop step (step s i).2 is).1, (runLoop step (step s i).2 is).2) :=
  rfl

/-- Characterization of runLoop on a contiguous index interval, for a loop
body whose environment update depends only on the index: iteration i sees
the initial environment when i is the first index and otherwise the update
of index i minus one, and the loop leaves the update of the last index. -/
theorem runLoop_range' {σ α : Type} (step : σ → Nat → α × σ) (f : σ → Nat → α) (g : Nat → σ)
    (hstep : ∀ s i, step s i = (f s i, g i)) :
    ∀ (n a : Nat) (s : σ), 0 < n →
      runLoop step s (List.range' a n)
        = ((List.range' a n).map (fun i => f (if i = a then s else g (i - 1)) i),
           g (a + n - 1)) := by
  intro n
  induction n with
  | zero => intro a s h; exact absurd h (by simp)
  | succ n ih =>
    intro a s _
    rw [List.range'_succ]
    cases n with
    | zero => simp [runLoop, hstep]
    | succ m =>
      rw [runLoop_cons, hstep]
      dsimp only
      rw [ih (a + 1) (g a) (Nat.succ_pos m)]
      refine Prod.ext ?_ ?_
      · simp only [List.map_cons, if_pos rfl]
        congr 1
        refine List.map_congr_left ?_
        intro i hi
        have hia : a + 1 ≤ i := (List.mem_range'_1.mp hi).1
        have h2 : ¬ i = a := by omega
        by_cases h3 : i = a + 1
        · subst h3; simp [h2]
        · simp [h2, h3]
      · show g (a + 1 + (m + 1) - 1) = g (a + (m + 1 + 1) - 1)
        congr 1
        omega

/-- Specialization of the runLoop characterization to List.range. -/
theorem runLoop_range {σ α : Type} (step : σ → Nat → α × σ) (f : σ → Nat → α) (g : Nat → σ)
    (hstep : ∀ s i, step s i = (f s i, g i)) (n : Nat) (s : σ) (hn : 0 < n) :
    runLoop step s (List.range n)
      = ((List.range n).map (fun i => f (if i = 0 then s else g (i - 1)) i), g (n - 1)) := by
  rw [List.range_eq_range', runLoop_range' step f g hstep n 0 s hn, ← List.range_eq_range']
  simp

/-- The environment update performed by both loops at index i: category
and elevation become i modulo row_cnt over 50 and i modulo row_cnt over
1000 (source lines 24, 25, 39 and 40). -/
def envAt (i : Nat) : PyEnv := some (pyMod i (pyDiv row_cnt 50), pyMod i (pyDiv row_cnt 1000))

theorem row_cnt_pos : 0 < row_cnt := by norm_num [row_cnt]

/-- Closed form of the animals iterations: iteration i emits its separator
writes and a row with id i, name built from i, and category and elevation
freshly computed from i. -/
theorem animalsIters_eq :
    animalsIters = (List.range row_cnt).map (fun i =>
      ⟨sepWrites animalsValuesClause i, i, "name" ++ pyStrNat i,
       some (pyMod i (pyDiv row_cnt 50), pyMod i (pyDiv row_cnt 1000))⟩) := by
  have h := runLoop_range animalsStep
    (fun _ i => ⟨sepWrites animalsValuesClause i, i, "name" ++ pyStrNat i,
       some (pyMod i (pyDiv row_cnt 50), pyMod i (pyDiv row_cnt 1000))⟩)
    envAt (fun s i => rfl) row_cnt none row_cnt_pos
  show animalsRun.1 = _
  rw [show animalsRun = runLoop animalsStep none (List.range row_cnt) from rfl, h]

/-- The environment the animals loop leaves behind: the values assigned at
its last index, row_cnt minus one. -/
theorem animalsRun_snd : animalsRun.2 = envAt (row_cnt - 1) := by
  have h := runLoop_range animalsStep
    (fun _ i => ⟨sepWrites animalsValuesClause i, i, "name" ++ pyStrNat i,
       some (pyMod i (pyDiv row_cnt 50), pyMod i (pyDiv row_cnt 1000))⟩)
    envAt (fun s i => rfl) row_cnt none row_cnt_pos
  rw [show animalsRun = runLoop animalsStep none (List.range row_cnt) from rfl, h]

/-- Closed form of the plants iterations: iteration i emits its separator
writes and a row with id i and name built from i, but whose category and
elevation are the stale environment values: for i zero the values left by
the animals loop, and otherwise the values assigned at the previous plants
index. -/
theorem plantsIters_eq :
    plantsIters = (List.range row_cnt).map (fun i =>
      ⟨sepWrites plantsValuesClause i, i, "name" ++ pyStrNat i,
       if i = 0 then envAt (row_cnt - 1) else envAt (i - 1)⟩) := by
  have h := runLoop_range plantsStep
    (fun s i => ⟨sepWrites plantsValuesClause i, i, "name" ++ pyStrNat i, s⟩)
    envAt (fun s i => rfl) row_cnt animalsRun.2 row_cnt_pos
  show plantsRun.1 = _
  rw [show plantsRun = runLoop plantsStep animalsRun.2 (List.range row_cnt) from rfl, h,
    animalsRun_snd]

/-- Lookup in a map over List.range. -/
theorem map_range_getElem? {α : Type} (F : Nat → α) {i n : Nat} (h : i < n) :
    ((List.range n).map F)[i]? = some (F i) := by
  rw [List.getElem?_map, List.getElem?_range h]
  rfl

/-- Value form of the environment update: both moduli reduce to the
constants 4000 and 200. -/
theorem envAt_val (i : Nat) : envAt i = some (⟨i % 4000, true⟩, ⟨i % 200, true⟩) := by
  unfold envAt pyMod pyDiv row_cnt
  norm_num

/-- C1, counterexample: it is not the case that every generated row of both
output files is written with category i mod 4000 and elevation i mod 200;
the first plants row (id 0) is written with the stale values 3999 and 199
instead of 0 and 0. -/
theorem claim_fresh_values_both_files_false :
    ¬ (∀ i, i < row_cnt →
        (animalsIters[i]?).map (fun o => (o.rowId, o.rowVals))
            = some (i, some (⟨i % 4000, true⟩, ⟨i % 200, true⟩)) ∧
        (plantsIters[i]?).map (fun o => (o.rowId, o.rowVals))
            = some (i, some (⟨i % 4000, true⟩, ⟨i % 200, true⟩))) := by
  intro h
  have h0 := (h 0 row_cnt_pos).2
  rw [plantsIters_eq, map_range_getElem? _ row_cnt_pos] at h0
  exact absurd h0 (by decide)

/-- C1, amended to the animals file: every generated row of animals.sql
with id i is written with category i mod 4000 and elevation i mod 200
(as integer-valued floats). -/
theorem animals_rows_fresh_mod_values (i : Nat) (hi : i < row_cnt) :
    (animalsIters[i]?).map (fun o => (o.rowId, o.rowVals))
      = some (i, some (⟨i % 4000, true⟩, ⟨i % 200, true⟩)) := by
  rw [animalsIters_eq, map_range_getElem? _ hi]
  rfl

theorem animals_rows_fresh_mod_values_witness :
    4000 < row_cnt ∧
    (animalsIters[4000]?).map (fun o => (o.rowId, o.rowVals))
      = some (4000, some (⟨4000 % 4000, true⟩, ⟨4000 % 200, true⟩)) :=
  ⟨by decide, animals_rows_fresh_mod_values 4000 (by decide)⟩

/-- C2: every generated row of plants.sql with index i at least one is
written with the values assigned during the previous iteration: category
(i - 1) mod 4000 and elevation (i - 1) mod 200, one iteration behind the
animals computation, because the source orders the updates after the
write. -/
theorem plants_rows_lag_one_iteration (i : Nat) (h1 : 1 ≤ i) (h2 : i < row_cnt) :
    (plantsIters[i]?).map (fun o => (o.rowId, o.rowVals))
      = some (i, some (⟨(i - 1) % 4000, true⟩, ⟨(i - 1) % 200, true⟩)) := by
  rw [plantsIters_eq, map_range_getElem? _ h2]
  have h0 : ¬ i = 0 := by omega
  rw [if_neg h0, envAt_val]
  rfl

theorem plants_rows_lag_one_iteration_witness :
    1 ≤ 4000 ∧ 4000 < row_cnt ∧
    (plantsIters[4000]?).map (fun o => (o.rowId, o.rowVals))
      = some (4000, some (⟨(4000 - 1) % 4000, true⟩, ⟨(4000 - 1) % 200, true⟩)) :=
  ⟨by decide, by decide, plants_rows_lag_one_iteration 4000 (by decide) (by decide)⟩

/-- C3: in both output files every generated row carries float category
and elevation values (Python true division makes the moduli floats, and
int mod float is a float), rendered with a trailing point-zero, so no
generated row has integer-formatted category or elevation; concretely the
first generated animals row is the exact string of the claim. -/
theorem generated_values_floats_with_trailing_point_zero :
    (∀ i, i < row_cnt → ∃ c e : PyNum,
      (animalsIters[i]?).map (fun o => o.rowVals) = some (some (c, e)) ∧
      c.isFloat = true ∧ e.isFloat = true ∧
      c.render = pyStrNat c.val ++ ".0" ∧ e.render = pyStrNat e.val ++ ".0") ∧
    (∀ i, i < row_cnt → ∃ c e : PyNum,
      (plantsIters[i]?).map (fun o => o.rowVals) = some (some (c, e)) ∧
      c.isFloat = true ∧ e.isFloat = true ∧
      c.render = pyStrNat c.val ++ ".0" ∧ e.render = pyStrNat e.val ++ ".0") ∧
    (animalsIters[0]?).map IterOut.writes = some ["  (0,'name0',0.0,0.0)"] := by
  refine ⟨?_, ?_, ?_⟩
  · intro i hi
    rw [animalsIters_eq, map_range_getElem? _ hi]
    exact ⟨pyMod i (pyDiv row_cnt 50), pyMod i (pyDiv row_cnt 1000), rfl, rfl, rfl, rfl, rfl⟩
  · intro i hi
    rw [plantsIters_eq, map_range_getElem? _ hi]
    by_cases h0 : i = 0
    · refine ⟨⟨(row_cnt - 1) % 4000, true⟩, ⟨(row_cnt - 1) % 200, true⟩, ?_, rfl, rfl, rfl, rfl⟩
      rw [if_pos h0, envAt_val]
      rfl
    · refine ⟨⟨(i - 1) % 4000, true⟩, ⟨(i - 1) % 200, true⟩, ?_, rfl, rfl, rfl, rfl⟩
      rw [if_neg h0, envAt_val]
      rfl
  · rw [animalsIters_eq, map_range_getElem? _ row_cnt_pos]
    decide

theorem generated_values_floats_witness :
    0 < row_cnt ∧
    (∃ c e : PyNum,
      (plantsIters[0]?).map (fun o => o.rowVals) = some (some (c, e)) ∧
      c.isFloat = true ∧ e.isFloat = true ∧
      c.render = pyStrNat c.val ++ ".0" ∧ e.render = pyStrNat e.val ++ ".0") :=
  ⟨by decide, generated_values_floats_with_trailing_point_zero.2.1 0 (by decide)⟩

/-- C10: the first generated row of plants.sql is written with the values
left behind by the final animals iteration, 3999 = 199999 mod 4000 and
199 = 199999 mod 200; the environment after the animals loop is exactly
that pair, and a plants loop started from the initial unbound environment
would have found no values to read at its first row, so the plants output
depends on the animals pass having run first. -/
theorem plants_first_row_leaks_animals_state :
    (plantsIters[0]?).map (fun o => o.rowVals)
        = some (some (⟨3999, true⟩, ⟨199, true⟩)) ∧
    (⟨3999, true⟩ : PyNum) = ⟨(row_cnt - 1) % 4000, true⟩ ∧
    (⟨199, true⟩ : PyNum) = ⟨(row_cnt - 1) % 200, true⟩ ∧
    animalsRun.2 = some (⟨3999, true⟩, ⟨199, true⟩) ∧
    (runLoop plantsStep none (List.range row_cnt)).1.head?.map (fun o => o.rowVals)
        = some none := by
  refine ⟨?_, by decide, by decide, ?_, ?_⟩
  · rw [plantsIters_eq, map_range_getElem? _ row_cnt_pos]
    simp only [if_pos rfl, envAt_val, Option.map_some, row_cnt]
    norm_num
  · rw [animalsRun_snd, envAt_val]
    norm_num [row_cnt]
  · have h := runLoop_range plantsStep
      (fun s i => ⟨sepWrites plantsValuesClause i, i, "name" ++ pyStrNat i, s⟩)
      envAt (fun s i => rfl) row_cnt none row_cnt_pos
    rw [h]
    simp only [List.head?_eq_getElem?]
    rw [map_range_getElem? _ row_cnt_pos]
    rfl

/-- At a nonzero multiple of the batch size the separator writes close the
previous statement and open a fresh values clause. -/
theorem sepWrites_boundary (cl : String) (i : Nat) (h1 : 0 < i) (h2 : i % 10000 = 0) :
    sepWrites cl i = [";\n", cl] := by
  unfold sepWrites
  rw [if_pos]
  exact ⟨h1, h2⟩

/-- At a positive index that is not a batch boundary the separator is a
single comma line. -/
theorem sepWrites_comma (cl : String) (i : Nat) (h1 : 0 < i) (h2 : ¬ i % 10000 = 0) :
    sepWrites cl i = [",\n"] := by
  unfold sepWrites
  rw [if_neg, if_pos h1]
  rintro ⟨-, h⟩
  exact h2 h

/-- The first loop iteration emits no separator. -/
theorem sepWrites_zero (cl : String) : sepWrites cl 0 = [] := rfl

/-- C4: a generated row whose index is a nonzero multiple of the batch
size row_cnt / 20 = 10000 starts a new insert statement in both files (a
closing semicolon line then a fresh values clause), every other row with
positive index is preceded by a comma line, and concretely row 9999 ends
batch one (comma separator, with the semicolon arriving as the first
separator write of iteration 10000) while row 10000 opens a new animals
values clause. -/
theorem batch_boundary_separators :
    (∀ i, i < row_cnt → 0 < i → i % 10000 = 0 →
      (animalsIters[i]?).map IterOut.sep = some [";\n", animalsValuesClause] ∧
      (plantsIters[i]?).map IterOut.sep = some [";\n", plantsValuesClause]) ∧
    (∀ i, i < row_cnt → 0 < i → ¬ i % 10000 = 0 →
      (animalsIters[i]?).map IterOut.sep = some [",\n"] ∧
      (plantsIters[i]?).map IterOut.sep = some [",\n"]) ∧
    (animalsIters[9999]?).map IterOut.sep = some [",\n"] ∧
    (animalsIters[10000]?).map IterOut.sep = some [";\n", animalsValuesClause] := by
  have ha : ∀ i, i < row_cnt → (animalsIters[i]?).map IterOut.sep
      = some (sepWrites animalsValuesClause i) := by
    intro i hi
    rw [animalsIters_eq, map_range_getElem? _ hi]
    rfl
  have hp : ∀ i, i < row_cnt → (plantsIters[i]?).map IterOut.sep
      = some (sepWrites plantsValuesClause i) := by
    intro i hi
    rw [plantsIters_eq, map_range_getElem? _ hi]
    rfl
  refine ⟨?_, ?_, ?_, ?_⟩
  · intro i hi h1 h2
    rw [ha i hi, hp i hi, sepWrites_boundary animalsValuesClause i h1 h2,
      sepWrites_boundary plantsValuesClause i h1 h2]
    exact ⟨rfl, rfl⟩
  · intro i hi h1 h2
    rw [ha i hi, hp i hi, sepWrites_comma animalsValuesClause i h1 h2,
      sepWrites_comma plantsValuesClause i h1 h2]
    exact ⟨rfl, rfl⟩
  · rw [ha 9999 (by decide), sepWrites_comma _ 9999 (by decide) (by decide)]
  · rw [ha 10000 (by decide), sepWrites_boundary _ 10000 (by decide) (by decide)]

theorem batch_boundary_separators_witness :
    20000 % 10000 = 0 ∧
    (animalsIters[20000]?).map IterOut.sep = some [";\n", animalsValuesClause] ∧
    (plantsIters[20000]?).map IterOut.sep = some [";\n", plantsValuesClause] :=
  ⟨by decide, (batch_boundary_separators.1 20000 (by decide) (by decide) (by decide)).1,
   (batch_boundary_separators.1 20000 (by decide) (by decide) (by decide)).2⟩

/-- C7: the generated ids of each file are exactly 0 to row_cnt - 1 in
increasing order with no repetition; the three hand-authored rows carry
the negative ids minus one to minus three (each row string literally
begins with its id), so no generated id collides with a seed id. -/
theorem generated_ids_contiguous_disjoint_from_seed :
    animalsIters.map IterOut.rowId = List.range row_cnt ∧
    plantsIters.map IterOut.rowId = List.range row_cnt ∧
    (animalsIters.map IterOut.rowId).Nodup ∧
    List.Sorted (· < ·) (animalsIters.map IterOut.rowId) ∧
    (∀ g ∈ animalsIters.map IterOut.rowId, g < row_cnt) ∧
    custom_ids = [-1, -2, -3] ∧
    (∀ c ∈ custom_ids, c < 0) ∧
    custom_animals_rowStrs.map (fun s => (⟨s.data.take 6⟩ : String))
      = custom_ids.map (fun c => "  (" ++ toString c ++ ",") ∧
    custom_plants_rowStrs.map (fun s => (⟨s.data.take 6⟩ : String))
      = custom_ids.map (fun c => "  (" ++ toString c ++ ",") ∧
    (∀ g ∈ animalsIters.map IterOut.rowId, ∀ c ∈ custom_ids, (g : Int) ≠ c) := by
  have hida : animalsIters.map IterOut.rowId = List.range row_cnt := by
    rw [animalsIters_eq, List.map_map]
    exact List.map_id _
  have hidp : plantsIters.map IterOut.rowId = List.range row_cnt := by
    rw [plantsIters_eq, List.map_map]
    exact List.map_id _
  refine ⟨hida, hidp, ?_, ?_, ?_, rfl, by decide, by decide, by decide, ?_⟩
  · rw [hida]; exact List.nodup_range row_cnt
  · rw [hida]; exact List.pairwise_lt_range row_cnt
  · rw [hida]; intro g hg; exact List.mem_range.mp hg
  · intro g _ c hc
    have hg0 : (0 : Int) ≤ (g : Int) := Int.natCast_nonneg g
    simp only [custom_ids, List.mem_cons, List.not_mem_nil, or_false] at hc
    rcases hc with rfl | rfl | rfl <;> omega

theorem generated_ids_witness :
    (0 ∈ animalsIters.map IterOut.rowId) ∧ ((-1 : Int) ∈ custom_ids) ∧ ((0 : Nat) : Int) ≠ -1 := by
  have h1 : animalsIters.map IterOut.rowId = List.range row_cnt :=
    generated_ids_contiguous_disjoint_from_seed.1
  have h2 : (0 ∈ animalsIters.map IterOut.rowId) := by rw [h1]; exact List.mem_range.mpr row_cnt_pos
  have h3 : ((-1 : Int) ∈ custom_ids) := by decide
  exact ⟨h2, h3, generated_ids_contiguous_disjoint_from_seed.2.2.2.2.2.2.2.2.2 0 h2 (-1) h3⟩

/-- Length of the decimal rendering: at most six digits below one
million. -/
theorem pyStrNat_length_le (n : Nat) (h : n < 1000000) : (pyStrNat n).length ≤ 6 := by
  unfold pyStrNat
  by_cases h0 : n = 0
  · rw [if_pos h0]; decide
  · rw [if_neg h0]
    show ((Nat.digits 10 n).reverse.map Nat.digitChar).length ≤ 6
    rw [List.length_map, List.length_reverse]
    rw [Nat.digits_len 10 n (by norm_num) h0]
    have h6 : n < 10 ^ 6 := by
      have : (10 : Nat) ^ 6 = 1000000 := by norm_num
      omega
    have := (Nat.lt_pow_iff_log_lt (b := 10) (by norm_num) h0).mp h6
    omega

/-- C9: every generated row of either file is written with the synthetic
name built from the word name followed by the decimal digits of its id,
and that name never exceeds the declared varchar width of 20 characters
(it is at most 10 characters for all ids below row_cnt). -/
theorem row_names_synthetic_within_varchar (i : Nat) (hi : i < row_cnt) :
    (animalsIters[i]?).map IterOut.rowName = some ("name" ++ pyStrNat i) ∧
    (plantsIters[i]?).map IterOut.rowName = some ("name" ++ pyStrNat i) ∧
    ("name" ++ pyStrNat i).length ≤ 20 := by
  refine ⟨?_, ?_, ?_⟩
  · rw [animalsIters_eq, map_range_getElem? _ hi]
    rfl
  · rw [plantsIters_eq, map_range_getElem? _ hi]
    rfl
  · have h6 : i < 1000000 := lt_of_lt_of_le hi (by norm_num [row_cnt])
    have := pyStrNat_length_le i h6
    rw [String.length_append]
    have h4 : ("name" : String).length = 4 := by decide
    omega

theorem row_names_witness :
    0 < row_cnt ∧
    (animalsIters[0]?).map IterOut.rowName = some ("name" ++ pyStrNat 0) ∧
    ("name" ++ pyStrNat 0).length ≤ 20 :=
  ⟨by decide, (row_names_synthetic_within_varchar 0 (by decide)).1,
   (row_names_synthetic_within_varchar 0 (by decide)).2.2⟩

/-- Summing the batch-boundary indicator over one batch of d consecutive
indices starting at a multiple of d: exactly the first index is a multiple
of d, and it counts only when it is positive. -/
theorem boundary_block_sum (k d : Nat) (hd : 0 < d) :
    ((List.range d).map (fun j => if 0 < k * d + j ∧ (k * d + j) % d = 0 then 1 else 0)).sum
      = if 0 < k then 1 else 0 := by
  have hsplit : List.range d = 0 :: List.range' 1 (d - 1) := by
    rw [List.range_eq_range']
    cases d with
    | zero => omega
    | succ e => rw [List.range'_succ]; simp
  rw [hsplit]
  simp only [List.map_cons, List.sum_cons]
  have hrest : ((List.range' 1 (d - 1)).map
      (fun j => if 0 < k * d + j ∧ (k * d + j) % d = 0 then 1 else 0)).sum = 0 := by
    apply List.sum_eq_zero
    intro x hx
    rw [List.mem_map] at hx
    obtain ⟨j, hj, rfl⟩ := hx
    have hj' := List.mem_range'_1.mp hj
    have hmod : (k * d + j) % d = j := by
      rw [Nat.mul_comm, Nat.mul_add_mod]
      exact Nat.mod_eq_of_lt (by omega)
    rw [if_neg]
    rintro ⟨-, h⟩
    rw [hmod] at h
    omega
  rw [hrest]
  have hm : (k * d + 0) % d = 0 := by
    rw [Nat.mul_comm, Nat.mul_add_mod]
    simp
  by_cases hk : 0 < k
  · rw [if_pos ⟨by positivity, hm⟩, if_pos hk]
  · have hk0 : k = 0 := by omega
    subst hk0
    simp

/-- Summing the batch-boundary indicator over k full batches: there are
k - 1 nonzero multiples of d below k times d. -/
theorem boundary_range_sum :
    ∀ k d, 0 < d →
      ((List.range (k * d)).map (fun i => if 0 < i ∧ i % d = 0 then 1 else 0)).sum = k - 1 := by
  intro k
  induction k with
  | zero => intro d hd; simp
  | succ k ih =>
    intro d hd
    have hkd : (k + 1) * d = k * d + d := by ring
    rw [hkd, List.range_add, List.map_append, List.sum_append, ih d hd, List.map_map]
    have hb : ((List.range d).map
        ((fun i => if 0 < i ∧ i % d = 0 then 1 else 0) ∘ fun x => k * d + x)).sum
          = if 0 < k then 1 else 0 := boundary_block_sum k d hd
    rw [hb]
    by_cases hk : 0 < k
    · rw [if_pos hk]; omega
    · rw [if_neg hk]; omega

/-- Data of a fold of string appends. -/
theorem foldl_append_data (L : List String) :
    ∀ a : String, (L.foldl (fun r s => r ++ s) a).data = a.data ++ (L.map String.data).flatten := by
  induction L with
  | nil => intro a; simp
  | cons s t ih =>
    intro a
    rw [List.foldl_cons, ih, String.data_append]
    simp [List.append_assoc]

/-- Data of a joined list of strings: the concatenation of their data. -/
theorem data_join (L : List String) : (String.join L).data = (L.map String.data).flatten := by
  show (L.foldl (fun r s => r ++ s) "").data = _
  rw [foldl_append_data]
  rfl

/-- Join of a cons. -/
theorem join_cons (s : String) (t : List String) :
    String.join (s :: t) = s ++ String.join t := by
  apply String.ext
  rw [data_join, String.data_append, data_join, List.map_cons, List.flatten_cons]

/-- Join of an append. -/
theorem join_append (a b : List String) :
    String.join (a ++ b) = String.join a ++ String.join b := by
  apply String.ext
  rw [data_join, String.data_append, data_join, data_join, List.map_append, List.flatten_append]

/-- Join of a singleton. -/
theorem join_singleton (s : String) : String.join [s] = s := by
  rw [join_cons]
  exact String.append_empty s

/-- C8: each file begins with a create-table statement declaring exactly
the four columns id, name, category, elevation (id being the int primary
key, name a varchar of width 20) and exactly the three secondary keys on
name, category and elevation, followed by a block of exactly three
hand-authored rows, then the opening values clause, the generated rows,
and the final terminator; the plants file has the identical structure for
its table name and its own three fixed rows. -/
theorem file_structure_schema_and_seed_rows :
    animalsHeader = renderCreateTable "animals" ∧
    plantsHeader = renderCreateTable "plants" ∧
    schemaCols.length = 4 ∧
    schemaKeys.length = 3 ∧
    custom_animals = seedBlock animalsValuesClause custom_animals_rowStrs ∧
    custom_plants = seedBlock plantsValuesClause custom_plants_rowStrs ∧
    custom_animals_rowStrs.length = 3 ∧
    custom_plants_rowStrs.length = 3 ∧
    animalsFile = animalsHeader ++ custom_animals ++ animalsValuesClause
      ++ String.join (animalsIters.flatMap IterOut.writes) ++ ";\n" ∧
    plantsFile = plantsHeader ++ custom_plants ++ plantsValuesClause
      ++ String.join (plantsIters.flatMap IterOut.writes) ++ ";\n" := by
  refine ⟨animalsHeader_structured, plantsHeader_structured, rfl, rfl,
    custom_animals_structured, custom_plants_structured, rfl, rfl, ?_, ?_⟩
  · show String.join (([animalsHeader, custom_animals, animalsValuesClause]
      ++ animalsIters.flatMap IterOut.writes) ++ [";\n"]) = _
    rw [join_append, join_append, join_cons, join_cons, join_cons, join_singleton,
      show String.join ([] : List String) = "" from rfl, String.append_empty]
    simp only [String.append_assoc]
  · show String.join (([plantsHeader, custom_plants, plantsValuesClause]
      ++ plantsIters.flatMap IterOut.writes) ++ [";\n"]) = _
    rw [join_append, join_append, join_cons, join_cons, join_cons, join_singleton,
      show String.join ([] : List String) = "" from rfl, String.append_empty]
    simp only [String.append_assoc]

/-- The head character of a generated row write is a space, whatever the
id, name and values are. -/
theorem rowText_head (id : Nat) (nm : String) (v : PyNum × PyNum) :
    (rowText id nm v).data.head? = some ' ' := rfl

/-- A generated row write differs from any string whose head character is
not a space. -/
theorem rowText_ne (id : Nat) (nm : String) (v : PyNum × PyNum) (t : String)
    (h : t.data.head? ≠ some ' ') : rowText id nm v ≠ t := by
  intro he
  exact h (he ▸ rowText_head id nm v)

/-- Counting occurrences of a values clause among the writes of one loop
iteration: one at a batch boundary (the reopened clause), zero
otherwise. -/
theorem count_clause_chunk (cl : String) (hs : (";\n" : String) ≠ cl)
    (hc : (",\n" : String) ≠ cl) (hh : cl.data.head? ≠ some ' ')
    (i : Nat) (nm : String) (v : PyNum × PyNum) :
    (sepWrites cl i ++ [rowText i nm v]).count cl
      = if 0 < i ∧ i % 10000 = 0 then 1 else 0 := by
  have hrow : rowText i nm v ≠ cl := rowText_ne i nm v cl hh
  unfold sepWrites
  by_cases hb : 0 < i ∧ (pyMod i insert_batch_cnt).val = 0
  · rw [if_pos hb, if_pos (show 0 < i ∧ i % 10000 = 0 from hb)]
    simp [List.count_cons, List.count_nil, beq_iff_eq, hs, hc, hrow]
  · rw [if_neg hb, if_neg (show ¬ (0 < i ∧ i % 10000 = 0) from hb)]
    by_cases h0 : 0 < i
    · rw [if_pos h0]
      simp [List.count_cons, List.count_nil, beq_iff_eq, hc, hrow]
    · rw [if_neg h0]
      simp [List.count_cons, List.count_nil, beq_iff_eq, hrow]

/-- The writes of the animals loop in flatMap closed form. -/
theorem animalsWrites_eq :
    animalsIters.flatMap IterOut.writes
      = (List.range row_cnt).flatMap (fun i =>
          sepWrites animalsValuesClause i
            ++ [rowText i ("name" ++ pyStrNat i) (⟨i % 4000, true⟩, ⟨i % 200, true⟩)]) := by
  rw [animalsIters_eq, List.flatMap_def, List.map_map, ← List.flatMap_def]
  rfl

/-- The writes of the plants loop in flatMap closed form: the row values
are the stale pair of the previous iteration, and for the first row the
pair left behind by the animals loop. -/
theorem plantsWrites_eq :
    plantsIters.flatMap IterOut.writes
      = (List.range row_cnt).flatMap (fun i =>
          sepWrites plantsValuesClause i
            ++ [rowText i ("name" ++ pyStrNat i)
                (if i = 0 then (⟨3999, true⟩, ⟨199, true⟩)
                 else (⟨(i - 1) % 4000, true⟩, ⟨(i - 1) % 200, true⟩))]) := by
  rw [plantsIters_eq, List.flatMap_def, List.map_map]
  rw [List.flatMap_def]
  refine congrArg _ (List.map_congr_left ?_)
  intro i _
  by_cases h0 : i = 0
  · subst h0
    simp [IterOut.writes, envAt_val, row_cnt]
  · simp [IterOut.writes, h0, envAt_val]

/-- C6: in each file, the number of insert statements covering the
generated rows, counted as the occurrences of the opening values-clause
write (the one before the loop plus one per batch boundary), is exactly
20, which equals the ceiling of row_cnt divided by the batch size
row_cnt / 20. -/
theorem generated_insert_statement_count :
    animalsFileWrites.count animalsValuesClause = 20 ∧
    plantsFileWrites.count plantsValuesClause = 20 ∧
    20 = (row_cnt + row_cnt / 20 - 1) / (row_cnt / 20) := by
  have hbodyA : (animalsIters.flatMap IterOut.writes).count animalsValuesClause = 19 := by
    rw [animalsWrites_eq, List.flatMap_def, List.count_flatten, List.map_map]
    have hpt : ∀ i ∈ List.range row_cnt,
        (List.count animalsValuesClause ∘ fun i =>
          sepWrites animalsValuesClause i
            ++ [rowText i ("name" ++ pyStrNat i) (⟨i % 4000, true⟩, ⟨i % 200, true⟩)]) i
          = (fun i => if 0 < i ∧ i % 10000 = 0 then 1 else 0) i := by
      intro i _
      exact count_clause_chunk animalsValuesClause (by decide) (by decide) (by decide) i _ _
    rw [List.map_congr_left hpt]
    rw [show List.range row_cnt = List.range (20 * 10000) from rfl]
    rw [boundary_range_sum 20 10000 (by norm_num)]
  have hbodyP : (plantsIters.flatMap IterOut.writes).count plantsValuesClause = 19 := by
    rw [plantsWrites_eq, List.flatMap_def, List.count_flatten, List.map_map]
    have hpt : ∀ i ∈ List.range row_cnt,
        (List.count plantsValuesClause ∘ fun i =>
          sepWrites plantsValuesClause i
            ++ [rowText i ("name" ++ pyStrNat i)
                (if i = 0 then (⟨3999, true⟩, ⟨199, true⟩)
                 else (⟨(i - 1) % 4000, true⟩, ⟨(i - 1) % 200, true⟩))]) i
          = (fun i => if 0 < i ∧ i % 10000 = 0 then 1 else 0) i := by
      intro i _
      exact count_clause_chunk plantsValuesClause (by decide) (by decide) (by decide) i _ _
    rw [List.map_congr_left hpt]
    rw [show List.range row_cnt = List.range (20 * 10000) from rfl]
    rw [boundary_range_sum 20 10000 (by norm_num)]
  refine ⟨?_, ?_, by decide⟩
  · show (([animalsHeader, custom_animals, animalsValuesClause]
      ++ animalsIters.flatMap IterOut.writes) ++ [";\n"]).count animalsValuesClause = 20
    rw [List.count_append, List.count_append, hbodyA]
    have h1 : ([animalsHeader, custom_animals, animalsValuesClause]).count animalsValuesClause
        = 1 := by decide
    have h2 : ([";\n"] : List String).count animalsValuesClause = 0 := by decide
    rw [h1, h2]
  · show (([plantsHeader, custom_plants, plantsValuesClause]
      ++ plantsIters.flatMap IterOut.writes) ++ [";\n"]).count plantsValuesClause = 20
    rw [List.count_append, List.count_append, hbodyP]
    have h1 : ([plantsHeader, custom_plants, plantsValuesClause]).count plantsValuesClause
        = 1 := by decide
    have h2 : ([";\n"] : List String).count plantsValuesClause = 0 := by decide
    rw [h1, h2]

/-- Decimal digit characters are never a semicolon. -/
theorem digitChar_ne_semicolon (d : Nat) (hd : d < 10) : Nat.digitChar d ≠ ';' := by
  interval_cases d <;> decide

/-- The decimal rendering of a natural number contains no semicolon. -/
theorem pyStrNat_no_semicolon (n : Nat) : ';' ∉ (pyStrNat n).data := by
  unfold pyStrNat
  by_cases h0 : n = 0
  · rw [if_pos h0]; decide
  · rw [if_neg h0]
    intro hmem
    have hm : ';' ∈ (Nat.digits 10 n).reverse.map Nat.digitChar := hmem
    rw [List.mem_map] at hm
    obtain ⟨d, hd, he⟩ := hm
    rw [List.mem_reverse] at hd
    exact digitChar_ne_semicolon d (Nat.digits_lt_base (by norm_num) hd) he

/-- A rendered script value contains no semicolon. -/
theorem count_semicolon_render (v : PyNum) : v.render.data.count ';' = 0 := by
  unfold PyNum.render
  rw [String.data_append, List.count_append,
    List.count_eq_zero.mpr (pyStrNat_no_semicolon v.val)]
  cases v.isFloat
  · decide
  · decide

/-- A generated row write whose name part has no semicolon contains no
semicolon. -/
theorem count_semicolon_rowText (id : Nat) (nm : String) (hnm : nm.data.count ';' = 0)
    (v : PyNum × PyNum) : (rowText id nm v).data.count ';' = 0 := by
  unfold rowText
  simp only [String.data_append, List.count_append]
  rw [hnm, count_semicolon_render, count_semicolon_render,
    List.count_eq_zero.mpr (pyStrNat_no_semicolon id)]
  decide

/-- The synthetic names contain no semicolon. -/
theorem count_semicolon_name (i : Nat) : ("name" ++ pyStrNat i).data.count ';' = 0 := by
  rw [String.data_append, List.count_append,
    List.count_eq_zero.mpr (pyStrNat_no_semicolon i)]
  decide

/-- Semicolon characters contributed by the writes of one loop iteration:
one at a batch boundary (the closing semicolon line), zero otherwise. -/
theorem count_semicolon_chunk (cl : String) (hcl : cl.data.count ';' = 0)
    (i : Nat) (nm : String) (hnm : nm.data.count ';' = 0) (v : PyNum × PyNum) :
    (((sepWrites cl i ++ [rowText i nm v]).map fun s => s.data.count ';').sum)
      = if 0 < i ∧ i % 10000 = 0 then 1 else 0 := by
  have hrow := count_semicolon_rowText i nm hnm v
  unfold sepWrites
  by_cases hb : 0 < i ∧ (pyMod i insert_batch_cnt).val = 0
  · rw [if_pos hb, if_pos (show 0 < i ∧ i % 10000 = 0 from hb)]
    simp only [List.cons_append, List.nil_append, List.map_cons, List.map_nil,
      List.sum_cons, List.sum_nil, hcl, hrow]
    decide
  · rw [if_neg hb, if_neg (show ¬ (0 < i ∧ i % 10000 = 0) from hb)]
    by_cases h0 : 0 < i
    · rw [if_pos h0]
      simp only [List.cons_append, List.nil_append, List.map_cons, List.map_nil,
        List.sum_cons, List.sum_nil, hrow]
      decide
    · rw [if_neg h0]
      simp only [List.nil_append, List.map_cons, List.map_nil, List.sum_cons,
        List.sum_nil, hrow]
      decide

/-- Adjacency invariant of the write sequence: whenever a write is the
opening values clause, the write immediately after it is neither the
closing semicolon line nor a comma line, so no insert statement is empty
and no row is preceded by a dangling separator right after its clause. -/
def afterClause (cl : String) (a b : String) : Prop :=
  a = cl → b ≠ ";\n" ∧ b ≠ ",\n"

/-- A chain holds for any list when the relation is total. -/
theorem chain'_of_forall {α : Type} {R : α → α → Prop} (h : ∀ a b, R a b) :
    ∀ l : List α, List.Chain' R l := by
  intro l
  induction l with
  | nil => simp
  | cons a t ih =>
    cases t with
    | nil => exact List.chain'_singleton a
    | cons b t2 => exact List.chain'_cons.mpr ⟨h a b, ih⟩

/-- A chain over a flatMap follows from chains inside every block plus the
relation linking the last element of each block to the head of the next
nonempty block. -/
theorem chain'_flatMap {α : Type} (R : α → α → Prop) (f : Nat → List α) :
    ∀ l : List Nat, (∀ i ∈ l, f i ≠ []) → (∀ i ∈ l, List.Chain' R (f i)) →
      List.Chain' (fun a b => ∀ x ∈ (f a).getLast?, ∀ y ∈ (f b).head?, R x y) l →
      List.Chain' R (l.flatMap f) := by
  intro l
  induction l with
  | nil => intro _ _ _; simp
  | cons i t ih =>
    intro hne hch hcross
    rw [List.flatMap_cons, List.chain'_append]
    refine ⟨hch i (List.mem_cons_self i t),
      ih (fun j hj => hne j (List.mem_cons_of_mem i hj))
        (fun j hj => hch j (List.mem_cons_of_mem i hj)) hcross.tail, ?_⟩
    intro x hx y hy
    cases t with
    | nil => simp at hy
    | cons j t2 =>
      obtain ⟨b, bs, hb⟩ := List.exists_cons_of_ne_nil (hne j (by simp))
      rw [List.flatMap_cons, hb] at hy
      have hS := (List.chain'_cons.mp hcross).1
      refine hS x hx y ?_
      rw [hb]
      simpa using hy

/-- Head of a flatMap whose first block is a cons. -/
theorem head?_flatMap_cons {α : Type} (f : Nat → List α) (i : Nat) (l : List Nat)
    (b : α) (t : List α) (hfi : f i = b :: t) :
    ((i :: l).flatMap f).head? = some b := by
  rw [List.flatMap_cons, hfi]
  rfl

/-- Last element of a flatMap whose final block ends with a given
element. -/
theorem getLast?_flatMap_concat {α : Type} (f : Nat → List α) (l : List Nat) (i : Nat)
    (b : α) (t : List α) (hfi : f i = t ++ [b]) :
    ((l ++ [i]).flatMap f).getLast? = some b := by
  rw [List.flatMap_append, List.flatMap_cons, List.flatMap_nil, List.append_nil, hfi]
  rw [List.getLast?_append, List.getLast?_concat]
  rfl

/-- The three separator shapes. -/
theorem sepWrites_cases (cl : String) (i : Nat) :
    sepWrites cl i = [";\n", cl] ∨ sepWrites cl i = [",\n"] ∨ sepWrites cl i = [] := by
  unfold sepWrites
  by_cases hb : 0 < i ∧ (pyMod i insert_batch_cnt).val = 0
  · rw [if_pos hb]; exact Or.inl rfl
  · rw [if_neg hb]
    by_cases h0 : 0 < i
    · rw [if_pos h0]; exact Or.inr (Or.inl rfl)
    · rw [if_neg h0]; exact Or.inr (Or.inr rfl)

/-- The adjacency invariant holds across the writes of any run of loop
iterations in closed form. -/
theorem chain'_genBody (cl : String) (hs : (";\n" : String) ≠ cl)
    (hc : (",\n" : String) ≠ cl) (hh : cl.data.head? ≠ some ' ')
    (nm : Nat → String) (vals : Nat → PyNum × PyNum) (l : List Nat) :
    List.Chain' (afterClause cl)
      (l.flatMap fun i => sepWrites cl i ++ [rowText i (nm i) (vals i)]) := by
  apply chain'_flatMap
  · intro i _
    simp
  · intro i _
    rcases sepWrites_cases cl i with h | h | h <;> rw [h]
    · simp only [List.cons_append, List.nil_append]
      refine List.chain'_cons.mpr ⟨fun hx => absurd hx hs, ?_⟩
      refine List.chain'_cons.mpr ⟨fun _ => ?_, List.chain'_singleton _⟩
      exact ⟨rowText_ne i (nm i) (vals i) ";\n" (by decide),
        rowText_ne i (nm i) (vals i) ",\n" (by decide)⟩
    · simp only [List.cons_append, List.nil_append]
      refine List.chain'_cons.mpr ⟨fun hx => absurd hx hc, List.chain'_singleton _⟩
    · simp only [List.nil_append]
      exact List.chain'_singleton _
  · apply chain'_of_forall
    intro a b x hx y _
    rw [List.getLast?_concat] at hx
    intro hxcl
    have hxr : rowText a (nm a) (vals a) = x := by simpa using hx
    exact absurd (hxr.trans hxcl) (rowText_ne a (nm a) (vals a) cl hh)

/-- The adjacency invariant holds across the entire write sequence of a
file: header, seed block, opening clause, generated writes, final
terminator. -/
theorem chain'_file (hdr cst cl : String) (h1 : hdr ≠ cl) (h2 : cst ≠ cl)
    (hs : (";\n" : String) ≠ cl) (hc : (",\n" : String) ≠ cl)
    (hh : cl.data.head? ≠ some ' ')
    (nm : Nat → String) (vals : Nat → PyNum × PyNum)
    (l l₁ l₂ : List Nat) (e : Nat) (hhead : l = 0 :: l₁) (hlast : l = l₂ ++ [e]) :
    List.Chain' (afterClause cl)
      (([hdr, cst, cl] ++ l.flatMap
          (fun i => sepWrites cl i ++ [rowText i (nm i) (vals i)])) ++ [";\n"]) := by
  rw [List.chain'_append]
  refine ⟨?_, List.chain'_singleton _, ?_⟩
  · rw [List.chain'_append]
    refine ⟨?_, chain'_genBody cl hs hc hh nm vals l, ?_⟩
    · refine List.chain'_cons.mpr ⟨fun hx => absurd hx h1, ?_⟩
      exact List.chain'_cons.mpr ⟨fun hx => absurd hx h2, List.chain'_singleton _⟩
    · intro x hx y hy
      rw [hhead, head?_flatMap_cons
        (fun i => sepWrites cl i ++ [rowText i (nm i) (vals i)]) 0 l₁
        (rowText 0 (nm 0) (vals 0)) [] rfl] at hy
      have hy' : rowText 0 (nm 0) (vals 0) = y := by simpa using hy
      intro _
      rw [← hy']
      exact ⟨rowText_ne 0 (nm 0) (vals 0) ";\n" (by decide),
        rowText_ne 0 (nm 0) (vals 0) ",\n" (by decide)⟩
  · intro x hx y _
    rw [List.getLast?_append] at hx
    rw [hlast, getLast?_flatMap_concat
      (fun i => sepWrites cl i ++ [rowText i (nm i) (vals i)]) l₂ e
      (rowText e (nm e) (vals e)) (sepWrites cl e) rfl, Option.or_some] at hx
    have hx' : rowText e (nm e) (vals e) = x := by simpa using hx
    intro hxcl
    exact absurd (hx'.trans hxcl) (rowText_ne e (nm e) (vals e) cl hh)

/-- C5: in each output file every insert statement is terminated by
exactly one semicolon and none is empty.  Formally: the file text contains
exactly 22 semicolon characters, one per statement (the create table, the
seed block, and the 20 generated batches); the final write is the
terminating semicolon line; along the whole write sequence a values clause
is never immediately followed by a semicolon or comma line (so no empty
statement and no dangling separator); and the first generated row of each
file is emitted with no leading separator. -/
theorem insert_statements_terminated_no_empty :
    animalsFile.data.count ';' = 22 ∧
    plantsFile.data.count ';' = 22 ∧
    animalsFileWrites.getLast? = some ";\n" ∧
    plantsFileWrites.getLast? = some ";\n" ∧
    List.Chain' (afterClause animalsValuesClause) animalsFileWrites ∧
    List.Chain' (afterClause plantsValuesClause) plantsFileWrites ∧
    (animalsIters[0]?).map IterOut.sep = some [] ∧
    (plantsIters[0]?).map IterOut.sep = some [] := by
  have hbodyA : ((animalsIters.flatMap IterOut.writes).map fun s => s.data.count ';').sum
      = 19 := by
    rw [animalsWrites_eq, List.flatMap_def, List.map_flatten, List.sum_flatten,
      List.map_map, List.map_map]
    have hpt : ∀ i ∈ List.range row_cnt,
        ((List.sum ∘ (List.map fun s => s.data.count ';')) ∘ fun i =>
          sepWrites animalsValuesClause i
            ++ [rowText i ("name" ++ pyStrNat i) (⟨i % 4000, true⟩, ⟨i % 200, true⟩)]) i
          = (fun i => if 0 < i ∧ i % 10000 = 0 then 1 else 0) i := by
      intro i _
      exact count_semicolon_chunk animalsValuesClause (by decide) i _
        (count_semicolon_name i) _
    rw [List.map_congr_left hpt]
    rw [show List.range row_cnt = List.range (20 * 10000) from rfl]
    rw [boundary_range_sum 20 10000 (by norm_num)]
  have hbodyP : ((plantsIters.flatMap IterOut.writes).map fun s => s.data.count ';').sum
      = 19 := by
    rw [plantsWrites_eq, List.flatMap_def, List.map_flatten, List.sum_flatten,
      List.map_map, List.map_map]
    have hpt : ∀ i ∈ List.range row_cnt,
        ((List.sum ∘ (List.map fun s => s.data.count ';')) ∘ fun i =>
          sepWrites plantsValuesClause i
            ++ [rowText i ("name" ++ pyStrNat i)
                (if i = 0 then (⟨3999, true⟩, ⟨199, true⟩)
                 else (⟨(i - 1) % 4000, true⟩, ⟨(i - 1) % 200, true⟩))]) i
          = (fun i => if 0 < i ∧ i % 10000 = 0 then 1 else 0) i := by
      intro i _
      exact count_semicolon_chunk plantsValuesClause (by decide) i _
        (count_semicolon_name i) _
    rw [List.map_congr_left hpt]
    rw [show List.range row_cnt = List.range (20 * 10000) from rfl]
    rw [boundary_range_sum 20 10000 (by norm_num)]
  have hfileA : animalsFile.data.count ';' = 22 := by
    show (String.join animalsFileWrites).data.count ';' = 22
    rw [data_join, List.count_flatten, List.map_map]
    show ((([animalsHeader, custom_animals, animalsValuesClause]
      ++ animalsIters.flatMap IterOut.writes) ++ [";\n"]).map
        (List.count ';' ∘ String.data)).sum = 22
    rw [List.map_append, List.sum_append, List.map_append, List.sum_append]
    have hpre : (([animalsHeader, custom_animals, animalsValuesClause]).map
        (List.count ';' ∘ String.data)).sum = 2 := by decide
    have hsuf : (([";\n"] : List String).map (List.count ';' ∘ String.data)).sum = 1 := by
      decide
    have hb : ((animalsIters.flatMap IterOut.writes).map
        (List.count ';' ∘ String.data)).sum = 19 := hbodyA
    rw [hpre, hsuf, hb]
  have hfileP : plantsFile.data.count ';' = 22 := by
    show (String.join plantsFileWrites).data.count ';' = 22
    rw [data_join, List.count_flatten, List.map_map]
    show ((([plantsHeader, custom_plants, plantsValuesClause]
      ++ plantsIters.flatMap IterOut.writes) ++ [";\n"]).map
        (List.count ';' ∘ String.data)).sum = 22
    rw [List.map_append, List.sum_append, List.map_append, List.sum_append]
    have hpre : (([plantsHeader, custom_plants, plantsValuesClause]).map
        (List.count ';' ∘ String.data)).sum = 2 := by decide
    have hsuf : (([";\n"] : List String).map (List.count ';' ∘ String.data)).sum = 1 := by
      decide
    have hb : ((plantsIters.flatMap IterOut.writes).map
        (List.count ';' ∘ String.data)).sum = 19 := hbodyP
    rw [hpre, hsuf, hb]
  have hchA : List.Chain' (afterClause animalsValuesClause) animalsFileWrites := by
    show List.Chain' (afterClause animalsValuesClause)
      (([animalsHeader, custom_animals, animalsValuesClause]
        ++ animalsIters.flatMap IterOut.writes) ++ [";\n"])
    rw [animalsWrites_eq]
    exact chain'_file animalsHeader custom_animals animalsValuesClause
      (by decide) (by decide) (by decide) (by decide) (by decide) _ _
      (List.range row_cnt) (List.range' 1 199999) (List.range 199999) 199999
      (by rw [List.range_eq_range']; exact List.range'_succ 0 199999 1)
      (List.range_succ 199999)
  have hchP : List.Chain' (afterClause plantsValuesClause) plantsFileWrites := by
    show List.Chain' (afterClause plantsValuesClause)
      (([plantsHeader, custom_plants, plantsValuesClause]
        ++ plantsIters.flatMap IterOut.writes) ++ [";\n"])
    rw [plantsWrites_eq]
    exact chain'_file plantsHeader custom_plants plantsValuesClause
      (by decide) (by decide) (by decide) (by decide) (by decide) _ _
      (List.range row_cnt) (List.range' 1 199999) (List.range 199999) 199999
      (by rw [List.range_eq_range']; exact List.range'_succ 0 199999 1)
      (List.range_succ 199999)
  refine ⟨hfileA, hfileP, List.getLast?_concat _, List.getLast?_concat _, hchA, hchP, ?_, ?_⟩
  · rw [animalsIters_eq, map_range_getElem? _ row_cnt_pos]
    rfl
  · rw [plantsIters_eq, map_range_getElem? _ row_cnt_pos]
    rfl
